import Mathlib

/-!
# Verification of the yestr-face avatar proxy

A shallow embedding of the cache-population and freshness-coordination
logic of the yestr-face repository (Cloudflare Worker proxying Nostr
profile pictures), together with proofs about the embedded definitions.

Sources embedded:
* `src/handlers/avatar.ts` — `serveCachedImage`, `fetchAndProcessNewImage`,
  `handleErrorResponse`, `handleAvatar`
* `src/services/image.ts` — `ImageService` (direct fetch, proxy fetch,
  validation, `generateR2Key`)
* `src/services/nostr.ts` — `NostrService.fetchProfile` event accumulation
* `src/services/storage.ts` — `StorageService` (KV/R2 wrappers,
  `recordFailure`)
* `src/services/scanner.ts` — `ProfileScanner.processProfile`, cleanup
  condition
* `src/utils/validation.ts`, `src/utils/cache.ts`

Timestamps are JavaScript `Date.now()` millisecond values, modelled as
`Nat`; where the source subtracts timestamps with JavaScript number
semantics the model casts to `Int` first.  Byte buffers are `List Nat`
(one `Nat` per byte).  JavaScript string-keyed objects and the KV/R2
stores are modelled as association lists observed through a first-match
lookup, with insertion modelled as a shadowing cons (extensionally equal
to overwrite-at-key).
-/

namespace YestrFace

/-! ## Generic list helpers -/

/-- First-match lookup in an association list (the observable behaviour of
a JavaScript object / KV namespace / R2 bucket keyed by strings). -/
def lookupA {α : Type} : List (String × α) → String → Option α
  | [], _ => none
  | (k, v) :: rest, key => if k = key then some v else lookupA rest key

/-- Overwrite-at-key insertion, modelled as a shadowing cons. -/
def insertA {α : Type} (l : List (String × α)) (k : String) (v : α) :
    List (String × α) :=
  (k, v) :: l

@[simp] theorem lookupA_nil {α : Type} (key : String) :
    lookupA ([] : List (String × α)) key = none := rfl

@[simp] theorem lookupA_cons {α : Type} (k : String) (v : α)
    (rest : List (String × α)) (key : String) :
    lookupA ((k, v) :: rest) key =
      if k = key then some v else lookupA rest key := rfl

@[simp] theorem lookupA_insertA_self {α : Type} (l : List (String × α))
    (k : String) (v : α) : lookupA (insertA l k v) k = some v := by
  simp [insertA]

theorem lookupA_insertA_ne {α : Type} (l : List (String × α))
    (k k' : String) (v : α) (h : k ≠ k') :
    lookupA (insertA l k v) k' = lookupA l k' := by
  simp [insertA, h]

/-- `hay` starts with `needle` (element-wise). -/
def listStartsWith {α : Type} [DecidableEq α] : List α → List α → Bool
  | _, [] => true
  | [], _ :: _ => false
  | a :: as, b :: bs => a = b && listStartsWith as bs

/-- `needle` occurs contiguously inside `hay`; the model of JavaScript
`String.prototype.includes` (over code units / bytes). -/
def listContainsSub {α : Type} [DecidableEq α] : List α → List α → Bool
  | [], needle => needle.isEmpty
  | a :: rest, needle =>
      listStartsWith (a :: rest) needle || listContainsSub rest needle

theorem listStartsWith_spec {α : Type} [DecidableEq α]
    (hay needle : List α) :
    listStartsWith hay needle = true ↔ needle <+: hay := by
  induction hay generalizing needle with
  | nil =>
    cases needle with
    | nil => simp [listStartsWith]
    | cons b bs => simp [listStartsWith]
  | cons a as ih =>
    cases needle with
    | nil => simp [listStartsWith]
    | cons b bs =>
      simp only [listStartsWith, Bool.and_eq_true, decide_eq_true_eq, ih]
      constructor
      · rintro ⟨rfl, t, rfl⟩
        exact ⟨t, rfl⟩
      · rintro ⟨t, ht⟩
        cases ht
        exact ⟨rfl, t, rfl⟩

theorem listContainsSub_spec {α : Type} [DecidableEq α]
    (hay needle : List α) :
    listContainsSub hay needle = true ↔ needle <:+: hay := by
  induction hay with
  | nil =>
    simp only [listContainsSub, List.isEmpty_iff]
    constructor
    · rintro rfl; exact List.infix_rfl
    · intro h; exact List.eq_nil_of_infix_nil h
  | cons a rest ih =>
    simp only [listContainsSub, Bool.or_eq_true, listStartsWith_spec, ih]
    constructor
    · rintro (h | h)
      · exact h.isInfix
      · exact h.trans (List.suffix_cons a rest).isInfix
    · intro h
      rcases List.infix_cons_iff.mp h with h | h
      · exact Or.inl h
      · exact Or.inr h

/-- Substring transitivity at the `Bool` level. -/
theorem listContainsSub_trans {α : Type} [DecidableEq α]
    {hay mid needle : List α}
    (h1 : listContainsSub hay mid = true)
    (h2 : listContainsSub mid needle = true) :
    listContainsSub hay needle = true := by
  rw [listContainsSub_spec] at *
  exact h2.trans h1

/-! ## Decimal rendering

Model of JavaScript template-literal number formatting (`${n}` for a
non-negative integer renders its decimal digits).  Implemented with an
explicit fuel argument so every definition is structural and evaluable
by the kernel. -/

/-- Decimal digits of `n`, least significant first; `fuel ≥ n` suffices. -/
def digitsAux : Nat → Nat → List Nat
  | 0, _ => []
  | _ + 1, 0 => []
  | fuel + 1, n + 1 => (n + 1) % 10 :: digitsAux fuel ((n + 1) / 10)

/-- Decimal digits of `n`, least significant first. -/
def digitsRev (n : Nat) : List Nat := digitsAux n n

/-- Value of a least-significant-first digit list. -/
def valOfDigits : List Nat → Nat
  | [] => 0
  | d :: rest => d + 10 * valOfDigits rest

theorem valOfDigits_digitsAux (fuel n : Nat) (h : n ≤ fuel) :
    valOfDigits (digitsAux fuel n) = n := by
  induction fuel generalizing n with
  | zero =>
    interval_cases n
    simp [digitsAux, valOfDigits]
  | succ fuel ih =>
    cases n with
    | zero => simp [digitsAux, valOfDigits]
    | succ m =>
      have hdiv : (m + 1) / 10 ≤ fuel := by
        have : (m + 1) / 10 < m + 1 := Nat.div_lt_self (Nat.succ_pos m) (by omega)
        omega
      simp only [digitsAux, valOfDigits, ih _ hdiv]
      omega

theorem valOfDigits_digitsRev (n : Nat) : valOfDigits (digitsRev n) = n :=
  valOfDigits_digitsAux n n le_rfl

theorem digitsRev_injective : Function.Injective digitsRev := by
  intro a b h
  have := valOfDigits_digitsRev a
  rw [h, valOfDigits_digitsRev] at this
  omega

theorem digitsAux_lt_ten (fuel n : Nat) :
    ∀ d ∈ digitsAux fuel n, d < 10 := by
  induction fuel generalizing n with
  | zero => simp [digitsAux]
  | succ fuel ih =>
    cases n with
    | zero => simp [digitsAux]
    | succ m =>
      intro d hd
      simp only [digitsAux, List.mem_cons] at hd
      rcases hd with rfl | hd
      · exact Nat.mod_lt _ (by omega)
      · exact ih _ d hd

/-- Digit-to-character map restricted to base-10 digits. -/
theorem digitChar_inj_lt_ten {a b : Nat} (ha : a < 10) (hb : b < 10)
    (h : Nat.digitChar a = Nat.digitChar b) : a = b := by
  interval_cases a <;> interval_cases b <;> simp_all [Nat.digitChar]

theorem map_digitChar_inj {l1 l2 : List Nat}
    (h1 : ∀ d ∈ l1, d < 10) (h2 : ∀ d ∈ l2, d < 10)
    (h : l1.map Nat.digitChar = l2.map Nat.digitChar) : l1 = l2 := by
  induction l1 generalizing l2 with
  | nil => cases l2 <;> simp_all
  | cons a as ih =>
    cases l2 with
    | nil => simp_all
    | cons b bs =>
      simp only [List.map_cons, List.cons.injEq] at h
      have hab : a = b :=
        digitChar_inj_lt_ten (h1 a (by simp)) (h2 b (by simp)) h.1
      have : as = bs :=
        ih (fun d hd => h1 d (by simp [hd])) (fun d hd => h2 d (by simp [hd])) h.2
      simp [hab, this]

/-- Model of JavaScript decimal rendering of a non-negative number. -/
def natDecimal (n : Nat) : String :=
  if n = 0 then "0" else String.mk (((digitsRev n).reverse.map Nat.digitChar))

theorem natDecimal_data (n : Nat) (h : n ≠ 0) :
    (natDecimal n).data = (digitsRev n).reverse.map Nat.digitChar := by
  simp [natDecimal, h]

theorem digitsRev_ne_nil (n : Nat) (h : n ≠ 0) : digitsRev n ≠ [] := by
  intro hnil
  have := valOfDigits_digitsRev n
  rw [hnil] at this
  simp [valOfDigits] at this
  omega

theorem natDecimal_eq_zero_str {n : Nat} (h : natDecimal n = "0") : n = 0 := by
  by_contra hn
  have hd := congrArg String.data h
  rw [natDecimal_data n hn] at hd
  have hd' : (digitsRev n).reverse.map Nat.digitChar = ['0'] := by
    simpa using hd
  rcases hrev : (digitsRev n).reverse with _ | ⟨d, rest⟩
  · rw [hrev] at hd'; simp at hd'
  · rw [hrev] at hd'
    simp only [List.map_cons, List.cons.injEq] at hd'
    obtain ⟨hchar, hrest⟩ := hd'
    have hrest' : rest = [] := by simpa using hrest
    have hd10 : d < 10 := by
      apply digitsAux_lt_ten n n
      have : d ∈ (digitsRev n).reverse := by rw [hrev]; simp
      simpa using this
    have hd0 : d = 0 := by
      refine digitChar_inj_lt_ten hd10 (by omega) ?_
      rw [hchar]; decide
    have hdig : digitsRev n = [0] := by
      have := congrArg List.reverse hrev
      simpa [hrest', hd0] using this
    have hv := valOfDigits_digitsRev n
    rw [hdig] at hv
    simp [valOfDigits] at hv
    omega

theorem natDecimal_injective : Function.Injective natDecimal := by
  intro a b h
  by_cases ha : a = 0 <;> by_cases hb : b = 0
  · omega
  · subst ha
    have : b = 0 := natDecimal_eq_zero_str (n := b) (by rw [← h]; rfl)
    omega
  · subst hb
    have : a = 0 := natDecimal_eq_zero_str (n := a) (by rw [h]; rfl)
    omega
  · have hd := congrArg String.data h
    rw [natDecimal_data a ha, natDecimal_data b hb] at hd
    have hrev : (digitsRev a).reverse = (digitsRev b).reverse :=
      map_digitChar_inj
        (fun d hdm => digitsAux_lt_ten a a d (by simpa using hdm))
        (fun d hdm => digitsAux_lt_ten b b d (by simpa using hdm)) hd
    exact digitsRev_injective (List.reverse_injective hrev)

theorem natDecimal_digits (n : Nat) :
    ∀ c ∈ (natDecimal n).data, c.isDigit := by
  intro c hc
  by_cases h : n = 0
  · subst h
    simp only [natDecimal, if_pos rfl] at hc
    have : c = '0' := by simpa using hc
    simp [this, Char.isDigit]
  · rw [natDecimal_data n h] at hc
    simp only [List.mem_map, List.mem_reverse] at hc
    obtain ⟨d, hd, rfl⟩ := hc
    have hd10 : d < 10 := digitsAux_lt_ten n n d hd
    interval_cases d <;> simp [Nat.digitChar, Char.isDigit]

/-- Splitting a list at a separator that occurs in neither left part is
unambiguous. -/
theorem append_cons_inj {α : Type} {c : α} :
    ∀ {l1 l2 r1 r2 : List α}, c ∉ l1 → c ∉ l2 →
    l1 ++ c :: r1 = l2 ++ c :: r2 → l1 = l2 ∧ r1 = r2 := by
  intro l1
  induction l1 with
  | nil =>
    intro l2 r1 r2 _ h2 heq
    cases l2 with
    | nil => simpa using heq
    | cons b bs =>
      simp only [List.nil_append, List.cons_append, List.cons.injEq] at heq
      exact absurd (by rw [heq.1]; exact List.mem_cons_self b bs) h2
  | cons a as ih =>
    intro l2 r1 r2 h1 h2 heq
    cases l2 with
    | nil =>
      simp only [List.cons_append, List.nil_append, List.cons.injEq] at heq
      exact absurd (by rw [← heq.1]; exact List.mem_cons_self a as) h1
    | cons b bs =>
      simp only [List.cons_append, List.cons.injEq] at heq
      obtain ⟨rfl, heq⟩ := heq
      have h1' : c ∉ as := fun hm => h1 (List.mem_cons_of_mem _ hm)
      have h2' : c ∉ bs := fun hm => h2 (List.mem_cons_of_mem _ hm)
      obtain ⟨hl, hr⟩ := ih h1' h2' heq
      exact ⟨by rw [hl], hr⟩

/-- The `etag` computed on a successful refresh
(`src/handlers/avatar.ts`): JavaScript
`` `"${Date.now()}-${processedImage.size}"` ``. -/
def etagFor (now byteLength : Nat) : String :=
  "\"" ++ natDecimal now ++ "-" ++ natDecimal byteLength ++ "\""

theorem etagFor_data (now byteLength : Nat) :
    (etagFor now byteLength).data =
      '"' :: ((natDecimal now).data ++
        '-' :: ((natDecimal byteLength).data ++ ['"'])) := by
  simp [etagFor, String.data_append]

/-- The etag determines the timestamp and the byte length. -/
theorem etagFor_inj {t1 n1 t2 n2 : Nat}
    (h : etagFor t1 n1 = etagFor t2 n2) : t1 = t2 ∧ n1 = n2 := by
  have hd := congrArg String.data h
  rw [etagFor_data, etagFor_data] at hd
  have hd' := List.cons.inj hd
  have hdash1 : '-' ∉ (natDecimal t1).data := by
    intro hm
    have := natDecimal_digits t1 '-' hm
    simp [Char.isDigit] at this
  have hdash2 : '-' ∉ (natDecimal t2).data := by
    intro hm
    have := natDecimal_digits t2 '-' hm
    simp [Char.isDigit] at this
  obtain ⟨hleft, hright⟩ := append_cons_inj hdash1 hdash2 hd'.2
  have ht : t1 = t2 := natDecimal_injective (String.ext hleft)
  have hn : (natDecimal n1).data = (natDecimal n2).data := by
    have := List.append_inj' hright (by simp)
    exact this.1
  exact ⟨ht, natDecimal_injective (String.ext hn)⟩

/-! ## Data model (src/types/index.ts) -/

/-- Entry of `ProfileMetadata.sizes` — one stored variant. -/
structure VariantEntry where
  key : String
  contentType : String
  etag : String
  lastModified : Nat
  deriving DecidableEq

/-- Per-identity cache record stored in KV (`ProfileMetadata` in
src/types/index.ts).  `sizes` is a string-keyed object, modelled as an
association list; the optional fields model absent JavaScript
properties. -/
structure ProfileMetadata where
  pubkey : String
  originalUrl : String
  sizes : List (String × VariantEntry)
  fetchedAt : Nat
  profileUpdatedAt : Nat
  failureCount : Option Nat
  lastFailure : Option Nat
  deriving DecidableEq

/-- Decoded kind-0 event content; `none` for `picture` models an absent
property.  Only the fields the core consumes are carried. -/
structure ProfileContent where
  picture : Option String
  deriving DecidableEq

/-- Relay event (`NostrEvent` in src/types/index.ts); `content = none`
models a JSON body that fails to parse. -/
structure NostrEvent where
  pubkey : String
  kind : Nat
  created_at : Nat
  content : Option ProfileContent
  deriving DecidableEq

/-- Resolved profile (`NostrProfile` in src/types/index.ts), restricted
to the consumed fields. -/
structure NostrProfile where
  pubkey : String
  picture : Option String
  created_at : Nat
  deriving DecidableEq

/-- One stored R2 object: bytes plus the `httpMetadata` written with it. -/
structure StoredBlob where
  bytes : List Nat
  contentType : String
  etag : String
  deriving DecidableEq

/-- The two-tier persistent store: KV metadata records and R2 blobs. -/
structure Store where
  kv : List (String × ProfileMetadata)
  r2 : List (String × StoredBlob)
  deriving DecidableEq

/-- Environment configuration consumed by the avatar path:
`IMAGE_CACHE_DURATION` (seconds), `MAX_IMAGE_SIZE` (bytes),
`ALLOWED_IMAGE_TYPES` (already split on commas), `IMAGE_PROXY_SECRET`
(empty string means unset). -/
structure Config where
  maxAge : Nat
  maxImageSize : Nat
  allowedTypes : List String
  proxySecret : String
  deriving DecidableEq

/-- An HTTP response received from the origin (or proxy). -/
structure OriginResponse where
  ok : Bool
  status : Nat
  statusText : String
  contentType : Option String
  contentLength : Option Nat
  body : List Nat
  deriving DecidableEq

/-- Outcome of one `fetch` call: a response, an abort (timeout), or
another transport error. -/
inductive FetchOutcome where
  | response (resp : OriginResponse)
  | abortError
  | otherError (message : String)
  deriving DecidableEq

/-- Embeds the `ImageFetchError` class (src/types/index.ts). -/
structure ImageFetchError where
  message : String
  statusCode : Nat
  originalUrl : Option String
  deriving DecidableEq

/-- The errors `handleAvatar` can catch: `ProfileNotFoundError`,
`ImageFetchError`, or a plain `Error`. -/
inductive AvatarError where
  | profileNotFound (pubkey : String)
  | imageFetch (e : ImageFetchError)
  | generic (message : String)
  deriving DecidableEq

/-- Fields of a JSON error body produced by `handleErrorResponse`;
`none` models an absent property. -/
structure ErrorBody where
  error : String
  statusCode : Option Nat
  originalUrl : Option String
  suggestion : Option String
  botProtection : Bool
  pubkeyField : Option String
  deriving DecidableEq

/-- Response body: raw image bytes or a JSON error object. -/
inductive ABody where
  | image (bytes : List Nat)
  | json (e : ErrorBody)
  deriving DecidableEq

/-- Response descriptor returned by the engine; header values are carried
as fields (`xCacheHit` is the `X-Cache: HIT/MISS` marker, `none` on error
responses which set no cache headers). -/
structure AvatarResponse where
  status : Nat
  contentType : Option String
  etag : Option String
  lastModified : Option Nat
  xCacheHit : Option Bool
  body : ABody
  deriving DecidableEq

/-- JavaScript truthiness of an optional number (`0` and `undefined` are
falsy). -/
def truthyNat : Option Nat → Bool
  | some n => n != 0
  | none => false

/-- JavaScript truthiness of an optional string (`''` and `undefined`
are falsy). -/
def truthyStr : Option String → Bool
  | some s => s != ""
  | none => false

/-! ## Validation utilities (src/utils/validation.ts) -/

/-- One character of the `HEX_REGEX` character class `[0-9a-fA-F]`. -/
def isHexDigitChar (c : Char) : Bool :=
  c.isDigit || ('a' ≤ c && c ≤ 'f') || ('A' ≤ c && c ≤ 'F')

/-- Embeds `validatePubkey`: the string matches exactly 64 hex
characters. -/
def validatePubkey (s : String) : Bool :=
  s.data.length == 64 && s.data.all isHexDigitChar

/-- Characters before the first colon, if any colon occurs; the protocol
part of a parsed URL. -/
def schemeOf : List Char → Option (List Char)
  | [] => none
  | c :: rest => if c = ':' then some [] else (schemeOf rest).map (c :: ·)

/-- Embeds `isValidImageUrl`: the URL parses and its protocol is `http:`
or `https:`.  WHATWG URL parsing is abstracted to scheme extraction. -/
def isValidImageUrl (url : String) : Bool :=
  match schemeOf url.data with
  | some s =>
      (s.map Char.toLower) == "http".data || (s.map Char.toLower) == "https".data
  | none => false

/-- Suffix after the last dot: JavaScript `url.split('.').pop()`. -/
def afterLastDot (cs : List Char) : List Char :=
  cs.foldl (fun acc c => if c = '.' then [] else acc ++ [c]) []

/-- Embeds `getContentTypeFromUrl`: map the lowercased URL extension to a
mime type. -/
def getContentTypeFromUrl (url : String) : Option String :=
  let ext := String.mk ((afterLastDot url.data).map Char.toLower)
  if ext = "jpg" then some "image/jpeg"
  else if ext = "jpeg" then some "image/jpeg"
  else if ext = "png" then some "image/png"
  else if ext = "webp" then some "image/webp"
  else if ext = "gif" then some "image/gif"
  else none

/-! ## Cache utilities (src/utils/cache.ts) -/

/-- Embeds `getCacheKey`: `avatar:{pubkey}` with `:s{size}` appended when
`size` is truthy and `:{format}` appended when `format` is truthy. -/
def getCacheKey (pubkey : String) (size : Option Nat) (format : Option String) :
    String :=
  let withSize :=
    if truthyNat size then "avatar:" ++ pubkey ++ ":s" ++ natDecimal (size.getD 0)
    else "avatar:" ++ pubkey
  if truthyStr format then withSize ++ ":" ++ format.getD "" else withSize

/-- Embeds `shouldRevalidate`:
`Date.now() - metadata.fetchedAt > maxAge * 1000` with JavaScript number
subtraction (`maxAge` is in seconds). -/
def shouldRevalidate (now fetchedAt maxAge : Nat) : Bool :=
  decide ((now : Int) - (fetchedAt : Int) > (maxAge : Int) * 1000)

/-! ## Profile resolution (src/services/nostr.ts) -/

/-- Embeds the subscription handler of `NostrService.fetchProfile`: every
qualifying event (kind 0, matching author, parseable content)
unconditionally replaces the current candidate. -/
def fetchProfileStep (pubkey : String) (acc : Option NostrProfile)
    (e : NostrEvent) : Option NostrProfile :=
  if e.kind == 0 && e.pubkey == pubkey then
    match e.content with
    | some c => some ⟨e.pubkey, c.picture, e.created_at⟩
    | none => acc
  else acc

/-- Model of `NostrService.fetchProfile`: the candidate accumulated over
the events delivered (in arrival order) before the timeout resolves the
promise. -/
def fetchProfile (pubkey : String) (events : List NostrEvent) :
    Option NostrProfile :=
  events.foldl (fetchProfileStep pubkey) none

/-! ## Image service (src/services/image.ts) -/

/-- UTF-8 bytes of an ASCII marker string. -/
def strBytes (s : String) : List Nat := s.data.map Char.toNat

/-- Embeds the HTML sniff of `fetchImageDirect`: the first five bytes
spell `<html` case-insensitively; out-of-range reads are `undefined` in
JavaScript and compare unequal to any byte. -/
def isHtmlBody (b : List Nat) : Bool :=
  b.get? 0 == some 0x3c &&
  (b.get? 1 == some 0x68 || b.get? 1 == some 0x48) &&
  (b.get? 2 == some 0x74 || b.get? 2 == some 0x54) &&
  (b.get? 3 == some 0x6d || b.get? 3 == some 0x4d) &&
  (b.get? 4 == some 0x6c || b.get? 4 == some 0x4c)

/-- JavaScript `htmlContent.includes(marker)` on the decoded payload,
expressed over the raw bytes (exact for ASCII markers). -/
def bodyIncludes (b : List Nat) (marker : String) : Bool :=
  listContainsSub b (strBytes marker)

/-- Error thrown for a SiteGround CAPTCHA interstitial. -/
def siteGroundChallenge (url : String) : ImageFetchError :=
  ⟨"Image blocked by SiteGround CAPTCHA protection. This domain requires browser verification.",
    403, some url⟩

/-- Error thrown for a Cloudflare browser-verification interstitial. -/
def cloudflareChallenge (url : String) : ImageFetchError :=
  ⟨"Image blocked by Cloudflare browser verification. This domain requires browser verification.",
    403, some url⟩

/-- Error thrown for HTML with no recognised challenge marker. -/
def blockedOrHtmlError (byteLength : Nat) (url : String) : ImageFetchError :=
  ⟨"Server returned HTML instead of image (" ++ natDecimal byteLength ++
      " bytes). The image host may be blocking automated requests.",
    403, some url⟩

/-- Content-type resolution step of `fetchImageDirect`: keep an allowed
declared header, else use an allowed URL-derived type, else fail. -/
def resolveContentType (cfg : Config) (url : String)
    (declared : Option String) : Option String :=
  if truthyStr declared && cfg.allowedTypes.contains (declared.getD "") then
    declared
  else
    match getContentTypeFromUrl url with
    | some u => if cfg.allowedTypes.contains u then some u else none
    | none => none

/-- Embeds `ImageService.fetchImageDirect`; the outcome of the network
call is an explicit input. -/
def fetchImageDirect (cfg : Config) (url : String) :
    FetchOutcome → Except ImageFetchError (List Nat)
  | .abortError => .error ⟨"Image fetch timeout", 504, some url⟩
  | .otherError m => .error ⟨"Failed to fetch image: " ++ m, 500, some url⟩
  | .response resp =>
    if resp.ok = false then
      .error ⟨"Failed to fetch image: " ++ natDecimal resp.status ++ " " ++
          resp.statusText, resp.status, some url⟩
    else
      match resolveContentType cfg url resp.contentType with
      | none =>
        .error ⟨"Invalid content type: " ++
            (if truthyStr resp.contentType then resp.contentType.getD ""
             else "unknown"), 415, some url⟩
      | some _ct =>
        if (match resp.contentLength with
            | some cl => decide (cl > cfg.maxImageSize)
            | none => false) then
          .error ⟨"Image too large: " ++ natDecimal (resp.contentLength.getD 0) ++
              " bytes", 413, some url⟩
        else if resp.body.length > cfg.maxImageSize then
          .error ⟨"Image too large after download: " ++
              natDecimal resp.body.length ++ " bytes", 413, some url⟩
        else if isHtmlBody resp.body then
          if bodyIncludes resp.body "sgcaptcha" ||
              bodyIncludes resp.body "/.well-known/sgcaptcha/" then
            .error (siteGroundChallenge url)
          else if bodyIncludes resp.body "cf-browser-verification" ||
              bodyIncludes resp.body "Checking your browser" then
            .error (cloudflareChallenge url)
          else
            .error (blockedOrHtmlError resp.body.length url)
        else
          .ok resp.body

/-- Embeds `ImageService.fetchImageViaProxy`. -/
def fetchImageViaProxy (cfg : Config) (url : String) :
    FetchOutcome → Except ImageFetchError (List Nat) := fun outcome =>
  if cfg.proxySecret = "" then
    .error ⟨"Proxy secret not configured", 500, some url⟩
  else
    match outcome with
    | .abortError => .error ⟨"Proxy fetch timeout", 504, some url⟩
    | .otherError m =>
      .error ⟨"Proxy failed to fetch image: " ++ m, 500, some url⟩
    | .response resp =>
      if resp.ok = false then
        .error ⟨"Proxy failed to fetch image: " ++ natDecimal resp.status ++
            " " ++ resp.statusText, resp.status, some url⟩
      else if resp.body.length > cfg.maxImageSize then
        .error ⟨"Image too large from proxy: " ++ natDecimal resp.body.length ++
            " bytes", 413, some url⟩
      else
        .ok resp.body

/-- Embeds `ImageService.fetchImage`: retry through the proxy exactly
when the direct fetch failed with status 403 and a proxy secret is
configured. -/
def fetchImage (cfg : Config) (url : String)
    (outcome proxyOutcome : FetchOutcome) : Except ImageFetchError (List Nat) :=
  match fetchImageDirect cfg url outcome with
  | .ok b => .ok b
  | .error e =>
    if cfg.proxySecret != "" && e.statusCode == 403 then
      fetchImageViaProxy cfg url proxyOutcome
    else
      .error e

/-- Modelled from the spec: the external `file-type-mime` `parse`
function used by `ImageService.validateImage` is not part of this
repository; per the spec it sniffs magic-byte signatures — JPEG
`FFD8FF`, PNG `89504E47`, GIF `474946`, WebP `RIFF….WEBP`. -/
def parseMime (b : List Nat) : Option String :=
  if listStartsWith b [0xFF, 0xD8, 0xFF] then some "image/jpeg"
  else if listStartsWith b [0x89, 0x50, 0x4E, 0x47] then some "image/png"
  else if listStartsWith b [0x47, 0x49, 0x46] then some "image/gif"
  else if listStartsWith b [0x52, 0x49, 0x46, 0x46] &&
      listStartsWith (b.drop 8) [0x57, 0x45, 0x42, 0x50] then some "image/webp"
  else none

/-- Embeds `ImageService.validateImage`; failures are plain `Error`s
(not `ImageFetchError`s). -/
def validateImage (b : List Nat) : Except String String :=
  match parseMime b with
  | none => .error "Unknown or invalid image format"
  | some mime =>
    if listStartsWith mime.data ("image/".data) then .ok mime
    else .error "Not an image file"

/-- Result of `ImageService.processImage`. -/
structure ProcessedImage where
  buffer : List Nat
  contentType : String
  width : Nat
  height : Nat
  size : Nat
  deriving DecidableEq

/-- Embeds `ImageService.processImage` (no re-encoding in the MVP): the
buffer passes through unchanged; the `format` option is ignored by the
source. -/
def processImage (buffer : List Nat) (width height : Option Nat) :
    Except String ProcessedImage :=
  match validateImage buffer with
  | .error e => .error e
  | .ok mime =>
    .ok ⟨buffer, mime,
      if truthyNat width then width.getD 0 else 400,
      if truthyNat height then height.getD 0 else 400,
      buffer.length⟩

/-- Embeds `ImageService.generateR2Key`. -/
def generateR2Key (pubkey : String) (size : Option Nat)
    (format : Option String) : String :=
  let last :=
    if truthyNat size && truthyStr format then
      natDecimal (size.getD 0) ++ "x" ++ natDecimal (size.getD 0) ++ "." ++
        format.getD ""
    else "original"
  "avatars/" ++ pubkey ++ "/" ++ last

/-! ## Storage service (src/services/storage.ts) -/

/-- KV key scheme: `profile:{pubkey}`. -/
def profileKey (pubkey : String) : String := "profile:" ++ pubkey

/-- Read the metadata record of an identity. -/
def kvGet (s : Store) (pubkey : String) : Option ProfileMetadata :=
  lookupA s.kv (profileKey pubkey)

/-- Embeds `putProfileMetadata`: full overwrite keyed on
`metadata.pubkey`. -/
def kvPut (s : Store) (m : ProfileMetadata) : Store :=
  { s with kv := insertA s.kv (profileKey m.pubkey) m }

/-- Read a blob from R2. -/
def r2Get (s : Store) (key : String) : Option StoredBlob :=
  lookupA s.r2 key

/-- Embeds `putImage`: full overwrite of the blob at `key`. -/
def r2Put (s : Store) (key : String) (b : StoredBlob) : Store :=
  { s with r2 := insertA s.r2 key b }

/-- Embeds `StorageService.recordFailure`; the `error` string argument is
only logged by the source and is omitted here. -/
def recordFailure (s : Store) (pubkey : String) (now : Nat) : Store :=
  match kvGet s pubkey with
  | some m =>
    kvPut s { m with
      failureCount := some ((m.failureCount.getD 0) + 1),
      lastFailure := some now }
  | none =>
    kvPut s ⟨pubkey, "", [], now, now, some 1, some now⟩

/-- Result shape of `R2Bucket.list`. -/
structure R2Objects where
  keys : List String
  deriving DecidableEq

/-- Embeds `StorageService.getImage`: the outcome of the underlying
`R2Bucket.get` call is explicit; a thrown storage error is caught and
becomes `null`. -/
def svcGetImage (call : Except String (Option StoredBlob)) :
    Option StoredBlob :=
  match call with
  | .ok v => v
  | .error _ => none

/-- Embeds `StorageService.putImage`: a thrown storage error becomes
`null`. -/
def svcPutImage (call : Except String StoredBlob) : Option StoredBlob :=
  match call with
  | .ok v => some v
  | .error _ => none

/-- Embeds `StorageService.deleteImage`: a thrown storage error is
swallowed. -/
def svcDeleteImage (call : Except String Unit) : Unit :=
  match call with
  | .ok u => u
  | .error _ => ()

/-- Embeds `StorageService.listImages`: the body has no try/catch, so the
underlying outcome — including a thrown error — propagates to the
caller. -/
def svcListImages (call : Except String R2Objects) :
    Except String R2Objects :=
  call

/-- Embeds `StorageService.getProfileMetadata`: a thrown storage error is
caught and becomes `null`. -/
def svcGetProfileMetadata (call : Except String (Option ProfileMetadata)) :
    Option ProfileMetadata :=
  match call with
  | .ok v => v
  | .error _ => none

/-- Embeds `StorageService.putProfileMetadata`: a thrown storage error is
swallowed. -/
def svcPutProfileMetadata (call : Except String Unit) : Unit :=
  match call with
  | .ok u => u
  | .error _ => ()

/-- Embeds `StorageService.deleteProfileMetadata`: a thrown storage error
is swallowed. -/
def svcDeleteProfileMetadata (call : Except String Unit) : Unit :=
  match call with
  | .ok u => u
  | .error _ => ()

/-! ## Background scanner (src/services/scanner.ts) -/

/-- Embeds `ProfileScanner.processProfile`: upsert a placeholder record
(`fetchedAt = 0`, empty `sizes`) when the event is newer than what is
stored. -/
def processProfile (s : Store) (p : NostrProfile) : Store :=
  if truthyStr p.picture = false then s
  else
    match kvGet s p.pubkey with
    | some m =>
      if m.profileUpdatedAt ≥ p.created_at * 1000 then s
      else kvPut s ⟨p.pubkey, p.picture.getD "", [], 0, p.created_at * 1000,
        none, none⟩
    | none => kvPut s ⟨p.pubkey, p.picture.getD "", [], 0, p.created_at * 1000,
        none, none⟩

/-- Embeds the retention predicate of `ProfileScanner.cleanupOldImages`:
a record is pruned exactly when `metadata.fetchedAt < cutoffTime`. -/
def cleanupShouldDelete (m : ProfileMetadata) (cutoffTime : Nat) : Bool :=
  decide (m.fetchedAt < cutoffTime)

/-! ## Avatar handler (src/handlers/avatar.ts) -/

/-- Cache-hit response built by `serveCachedImage` (with
`getCacheHeaders(true, maxAge)` providing the `X-Cache: HIT` marker). -/
def hitResponse (im : VariantEntry) (blob : StoredBlob) : AvatarResponse :=
  ⟨200, some im.contentType, some im.etag, some im.lastModified, some true,
    .image blob.bytes⟩

/-- Embeds `serveCachedImage`: `null` (here `none`) when the entry is
absent, the record is stale, or the blob is missing from R2. -/
def serveCachedImage (cfg : Config) (m : ProfileMetadata) (cacheKey : String)
    (now : Nat) (s : Store) : Option AvatarResponse :=
  match lookupA m.sizes cacheKey with
  | none => none
  | some im =>
    if shouldRevalidate now m.fetchedAt cfg.maxAge then none
    else
      match r2Get s im.key with
      | none => none
      | some blob => some (hitResponse im blob)

/-- CACHE_CHECK phase of `handleAvatar`: the guard
`metadata && metadata.sizes[cacheKey]` followed by `serveCachedImage`. -/
def cacheCheck (cfg : Config) (pubkey cacheKey : String) (now : Nat)
    (s : Store) : Option AvatarResponse :=
  match kvGet s pubkey with
  | none => none
  | some m =>
    if (lookupA m.sizes cacheKey).isSome then
      serveCachedImage cfg m cacheKey now s
    else none

/-- Cache-miss 200 response built at the end of
`fetchAndProcessNewImage` (with `getCacheHeaders(false, maxAge)`
providing the `X-Cache: MISS` marker). -/
def missResponse (pimg : ProcessedImage) (etag : String) (now : Nat) :
    AvatarResponse :=
  ⟨200, some pimg.contentType, some etag, some now, some false,
    .image pimg.buffer⟩

/-- Embeds `fetchAndProcessNewImage`.  Relay events and origin fetch
outcomes are explicit inputs; all `Date.now()` reads within the request
are the single `now`. -/
def fetchAndProcessNewImage (cfg : Config) (pubkey : String) (size : Nat)
    (format : Option String) (cacheKey : String)
    (metadata : Option ProfileMetadata) (events : List NostrEvent)
    (outcome proxyOutcome : FetchOutcome) (now : Nat) (s : Store) :
    Except AvatarError (AvatarResponse × Store) :=
  match fetchProfile pubkey events with
  | none => .error (.profileNotFound pubkey)
  | some profile =>
    match profile.picture with
    | none => .error (.profileNotFound pubkey)
    | some pic =>
      if pic = "" then .error (.profileNotFound pubkey)
      else if isValidImageUrl pic = false then
        .error (.imageFetch ⟨"Invalid profile picture URL", 400, some pic⟩)
      else
        match fetchImage cfg pic outcome proxyOutcome with
        | .error e => .error (.imageFetch e)
        | .ok buffer =>
          match processImage buffer (some size) (some size) with
          | .error msg => .error (.generic msg)
          | .ok pimg =>
            let r2Key := generateR2Key pubkey (some size) format
            let etag := etagFor now pimg.size
            let s1 := r2Put s r2Key ⟨pimg.buffer, pimg.contentType, etag⟩
            let nm0 := metadata.getD
              ⟨pubkey, pic, [], now, profile.created_at * 1000, none, none⟩
            let nm1 : ProfileMetadata := { nm0 with
              sizes := insertA nm0.sizes cacheKey
                ⟨r2Key, pimg.contentType, etag, now⟩,
              fetchedAt := now,
              failureCount := some 0 }
            .ok (missResponse pimg etag now, kvPut s1 nm1)

/-- Suggestion string attached to bot-protection error responses. -/
def suggestionText : String :=
  "This image is protected by bot detection. Client should fetch directly from originalUrl or use ?fallback=true for generated avatar."

/-- Embeds `handleErrorResponse`: 404 for `ProfileNotFoundError`,
failure recording plus mapped status for `ImageFetchError` (with the
bot-protection flag when the status is 403 and the message mentions
browser verification), 500 otherwise. -/
def handleErrorResponse (err : AvatarError) (pubkey : String) (now : Nat)
    (s : Store) : AvatarResponse × Store :=
  match err with
  | .profileNotFound pk =>
    (⟨404, some "application/json", none, none, none,
        .json ⟨"Profile not found", none, none, none, false, some pk⟩⟩, s)
  | .imageFetch e =>
    let s' := recordFailure s pubkey now
    if e.statusCode == 403 &&
        listContainsSub e.message.data ("browser verification".data) then
      (⟨e.statusCode, some "application/json", none, none, none,
          .json ⟨e.message, some e.statusCode, e.originalUrl,
            some suggestionText, true, none⟩⟩, s')
    else
      (⟨e.statusCode, some "application/json", none, none, none,
          .json ⟨e.message, some e.statusCode, e.originalUrl, none, false,
            none⟩⟩, s')
  | .generic msg =>
    (⟨500, some "application/json", none, none, none,
        .json ⟨msg, none, none, none, false, none⟩⟩, s)

/-- REFRESH phase of `handleAvatar`: run `fetchAndProcessNewImage` with
the defaulted size (`size || 400`), translating errors through the
surrounding catch via `handleErrorResponse`. -/
def runRefresh (cfg : Config) (pubkey : String) (size : Option Nat)
    (format : Option String) (cacheKey : String) (events : List NostrEvent)
    (outcome proxyOutcome : FetchOutcome) (now : Nat) (s : Store) :
    AvatarResponse × Store :=
  match fetchAndProcessNewImage cfg pubkey
      (if truthyNat size then size.getD 0 else 400) format cacheKey
      (kvGet s pubkey) events outcome proxyOutcome now s with
  | .ok rs => rs
  | .error e => handleErrorResponse e pubkey now s

/-- Response for a malformed pubkey: `parseAvatarRequest` throws a plain
`Error`, caught by `handleAvatar` and rendered as a 500. -/
def invalidPubkeyResponse : AvatarResponse :=
  ⟨500, some "application/json", none, none, none,
    .json ⟨"Invalid pubkey format", none, none, none, false, none⟩⟩

/-- Embeds `handleAvatar`: validate, CACHE_CHECK, then SERVE_HIT or
REFRESH. -/
def handleAvatar (cfg : Config) (pubkey : String) (size : Option Nat)
    (format : Option String) (events : List NostrEvent)
    (outcome proxyOutcome : FetchOutcome) (now : Nat) (s : Store) :
    AvatarResponse × Store :=
  if validatePubkey pubkey = false then (invalidPubkeyResponse, s)
  else
    let cacheKey := getCacheKey pubkey size format
    match cacheCheck cfg pubkey cacheKey now s with
    | some r => (r, s)
    | none =>
      runRefresh cfg pubkey size format cacheKey events outcome proxyOutcome
        now s

/-! ## Store lemmas -/

theorem profileKey_inj {a b : String} (h : profileKey a = profileKey b) :
    a = b := by
  have hd := congrArg String.data h
  unfold profileKey at hd
  rw [String.data_append, String.data_append] at hd
  exact String.ext (List.append_cancel_left hd)

theorem kvGet_kvPut (s : Store) (m : ProfileMetadata) (k : String) :
    kvGet (kvPut s m) k = if m.pubkey = k then some m else kvGet s k := by
  unfold kvGet kvPut
  simp only [insertA, lookupA_cons]
  by_cases h : m.pubkey = k
  · simp [h]
  · have hk : ¬(profileKey m.pubkey = profileKey k) := fun hc => h (profileKey_inj hc)
    simp [hk, h]

@[simp] theorem r2Get_kvPut (s : Store) (m : ProfileMetadata) (k : String) :
    r2Get (kvPut s m) k = r2Get s k := rfl

@[simp] theorem kvGet_r2Put (s : Store) (key : String) (b : StoredBlob)
    (k : String) : kvGet (r2Put s key b) k = kvGet s k := rfl

theorem r2Get_r2Put (s : Store) (key : String) (b : StoredBlob) (k : String) :
    r2Get (r2Put s key b) k = if key = k then some b else r2Get s k := by
  unfold r2Get r2Put
  simp [insertA]

/-! ## Refresh success shape -/

/-- The metadata record written by a successful refresh (the
`newMetadata` object of `fetchAndProcessNewImage` after its mutations). -/
def mkRefreshRecord (metadata : Option ProfileMetadata) (pubkey pic : String)
    (createdAt : Nat) (cacheKey : String) (entry : VariantEntry) (now : Nat) :
    ProfileMetadata :=
  let nm0 := metadata.getD ⟨pubkey, pic, [], now, createdAt * 1000, none, none⟩
  { nm0 with
    sizes := insertA nm0.sizes cacheKey entry,
    fetchedAt := now,
    failureCount := some 0 }

theorem mkRefreshRecord_fetchedAt (md : Option ProfileMetadata)
    (pk pic : String) (ca : Nat) (key : String) (entry : VariantEntry)
    (now : Nat) : (mkRefreshRecord md pk pic ca key entry now).fetchedAt = now := by
  cases md <;> rfl

theorem mkRefreshRecord_failureCount (md : Option ProfileMetadata)
    (pk pic : String) (ca : Nat) (key : String) (entry : VariantEntry)
    (now : Nat) :
    (mkRefreshRecord md pk pic ca key entry now).failureCount = some 0 := by
  cases md <;> rfl

theorem mkRefreshRecord_sizes (md : Option ProfileMetadata)
    (pk pic : String) (ca : Nat) (key : String) (entry : VariantEntry)
    (now : Nat) :
    lookupA (mkRefreshRecord md pk pic ca key entry now).sizes key =
      some entry := by
  cases md <;> simp [mkRefreshRecord]

theorem mkRefreshRecord_pubkey_none (pk pic : String) (ca : Nat)
    (key : String) (entry : VariantEntry) (now : Nat) :
    (mkRefreshRecord none pk pic ca key entry now).pubkey = pk := rfl

theorem mkRefreshRecord_pubkey_some (m : ProfileMetadata) (pk pic : String)
    (ca : Nat) (key : String) (entry : VariantEntry) (now : Nat) :
    (mkRefreshRecord (some m) pk pic ca key entry now).pubkey = m.pubkey := rfl

theorem processImage_ok {buffer : List Nat} {w h : Option Nat}
    {pimg : ProcessedImage} (hp : processImage buffer w h = .ok pimg) :
    pimg.buffer = buffer ∧ pimg.size = buffer.length := by
  unfold processImage at hp
  cases hv : validateImage buffer with
  | error e => rw [hv] at hp; cases hp
  | ok mime =>
    rw [hv] at hp
    cases hp
    exact ⟨rfl, rfl⟩

/-- Anatomy of every successful run of `fetchAndProcessNewImage`: the
profile resolved with a picture, the fetch and validation succeeded, the
blob was written under the generated key with the computed etag, and the
mutated metadata record was persisted. -/
theorem refresh_ok_shape {cfg : Config} {pubkey : String} {size : Nat}
    {format : Option String} {cacheKey : String}
    {metadata : Option ProfileMetadata} {events : List NostrEvent}
    {outcome proxyOutcome : FetchOutcome} {now : Nat} {s : Store}
    {r : AvatarResponse} {s' : Store}
    (h : fetchAndProcessNewImage cfg pubkey size format cacheKey metadata
        events outcome proxyOutcome now s = .ok (r, s')) :
    ∃ profile pic buffer pimg,
      fetchProfile pubkey events = some profile ∧
      profile.picture = some pic ∧
      fetchImage cfg pic outcome proxyOutcome = .ok buffer ∧
      processImage buffer (some size) (some size) = .ok pimg ∧
      pimg.buffer = buffer ∧
      pimg.size = buffer.length ∧
      s' = kvPut
        (r2Put s (generateR2Key pubkey (some size) format)
          ⟨pimg.buffer, pimg.contentType, etagFor now pimg.size⟩)
        (mkRefreshRecord metadata pubkey pic profile.created_at cacheKey
          ⟨generateR2Key pubkey (some size) format, pimg.contentType,
            etagFor now pimg.size, now⟩ now) ∧
      r = missResponse pimg (etagFor now pimg.size) now := by
  unfold fetchAndProcessNewImage at h
  split at h
  · exact absurd h (by simp)
  rename_i profile hfp
  split at h
  · exact absurd h (by simp)
  rename_i pic hpic
  split at h
  · exact absurd h (by simp)
  rename_i hempty
  split at h
  · exact absurd h (by simp)
  rename_i hvalid
  split at h
  · exact absurd h (by simp)
  rename_i buffer hfi
  split at h
  · exact absurd h (by simp)
  rename_i pimg hpi
  simp only [Except.ok.injEq, Prod.mk.injEq] at h
  obtain ⟨hr, hs⟩ := h
  obtain ⟨hbuf, hsz⟩ := processImage_ok hpi
  refine ⟨profile, pic, buffer, pimg, hfp, hpic, hfi, hpi, hbuf, hsz, ?_, ?_⟩
  · rw [← hs]; rfl
  · rw [← hr]

/-! ## Profile accumulation characterization -/

/-- An event qualifies for `fetchProfile pubkey` when it is a kind-0
event by the requested author with parseable content. -/
def qualifies (pubkey : String) (e : NostrEvent) : Bool :=
  e.kind == 0 && e.pubkey == pubkey && e.content.isSome

/-- The last qualifying event in arrival order. -/
def lastQualifying (pubkey : String) (events : List NostrEvent) :
    Option NostrEvent :=
  events.foldl (fun acc e => if qualifies pubkey e then some e else acc) none

/-- The profile the handler builds from one qualifying event. -/
def profileOfEvent (e : NostrEvent) : NostrProfile :=
  ⟨e.pubkey, (e.content.getD ⟨none⟩).picture, e.created_at⟩

theorem lastQualifying_foldl_acc (pubkey : String) (events : List NostrEvent) :
    ∀ acc : Option NostrEvent,
      events.foldl (fun a e => if qualifies pubkey e then some e else a) acc =
        match lastQualifying pubkey events with
        | some x => some x
        | none => acc := by
  induction events with
  | nil => intro acc; rfl
  | cons e rest ih =>
    intro acc
    have hl : lastQualifying pubkey (e :: rest) =
        match lastQualifying pubkey rest with
        | some x => some x
        | none => if qualifies pubkey e then some e else none := by
      show rest.foldl _ (if qualifies pubkey e then some e else none) = _
      rw [ih]
    rw [List.foldl_cons, ih, hl]
    cases lastQualifying pubkey rest with
    | some x => rfl
    | none => by_cases hq : qualifies pubkey e <;> simp [hq]

theorem fetchProfile_foldl_acc (pubkey : String) (events : List NostrEvent) :
    ∀ acc : Option NostrProfile,
      events.foldl (fetchProfileStep pubkey) acc =
        match lastQualifying pubkey events with
        | some e => some (profileOfEvent e)
        | none => acc := by
  induction events with
  | nil => intro acc; rfl
  | cons e rest ih =>
    intro acc
    have hl : lastQualifying pubkey (e :: rest) =
        match lastQualifying pubkey rest with
        | some x => some x
        | none => if qualifies pubkey e then some e else none := by
      show rest.foldl _ (if qualifies pubkey e then some e else none) = _
      rw [lastQualifying_foldl_acc]
    rw [List.foldl_cons, ih, hl]
    cases hrest : lastQualifying pubkey rest with
    | some x => rfl
    | none =>
      by_cases hq : qualifies pubkey e
      · have hstep : fetchProfileStep pubkey acc e = some (profileOfEvent e) := by
          unfold qualifies at hq
          simp only [Bool.and_eq_true, Option.isSome_iff_exists] at hq
          obtain ⟨⟨hk, hp⟩, c, hc⟩ := hq
          unfold fetchProfileStep profileOfEvent
          rw [hc]
          simp [hk, hp, hc]
        simp [hq, hstep]
      · have hstep : fetchProfileStep pubkey acc e = acc := by
          unfold fetchProfileStep
          rcases hkp : (e.kind == 0 && e.pubkey == pubkey) with _ | _
          · simp
          · have hnone : e.content = none := by
              cases hc : e.content with
              | none => rfl
              | some c =>
                have : qualifies pubkey e = true := by
                  unfold qualifies
                  simp [hkp, hc]
                exact absurd this hq
            simp [hnone]
        simp [hq, hstep]

/-- Success projection for `Except` results. -/
def isOkE {ε α : Type} : Except ε α → Bool
  | .ok _ => true
  | .error _ => false

/-- Marker containment is monotone: text containing the long SiteGround
marker also contains `sgcaptcha`. -/
theorem wellknown_implies_sg (b : List Nat)
    (h : bodyIncludes b "/.well-known/sgcaptcha/" = true) :
    bodyIncludes b "sgcaptcha" = true :=
  listContainsSub_trans h (by decide)

/-! ## Concrete fixtures -/

/-- A valid 64-hex identity. -/
def pk64 : String :=
  "aaaaaaaaaaaaaaaaaaaaaaaaaaaaaaaaaaaaaaaaaaaaaaaaaaaaaaaaaaaaaaaa"

/-- Default deployment configuration: 7-day cache age, 10MB limit, the
four allowed image types, no proxy secret. -/
def cfgD : Config :=
  ⟨604800, 10485760, ["image/jpeg", "image/png", "image/gif", "image/webp"], ""⟩

/-- A profile picture URL with an allowed extension. -/
def picUrl : String := "https://example.com/a.png"

/-- A kind-0 event carrying `picUrl`. -/
def eventD : NostrEvent := ⟨pk64, 0, 1700000000, some ⟨some picUrl⟩⟩

/-- A 9-byte payload with the PNG signature. -/
def pngBody : List Nat := [0x89, 0x50, 0x4E, 0x47, 0x0D, 0x0A, 0x1A, 0x0A, 0x00]

/-- A successful origin response carrying `pngBody`. -/
def respPng : OriginResponse :=
  ⟨true, 200, "OK", some "image/png", some 9, pngBody⟩

/-- The empty two-tier store. -/
def emptyStore : Store := ⟨[], []⟩

/-! ## C3 — profile resolution accumulation -/

/-- A qualifying event with the newer timestamp, arriving first. -/
def eventNewer : NostrEvent := ⟨pk64, 0, 100, some ⟨some "https://example.com/new.png"⟩⟩

/-- A qualifying event with the older timestamp, arriving second. -/
def eventOlder : NostrEvent := ⟨pk64, 0, 50, some ⟨some "https://example.com/old.png"⟩⟩

/-- C3 counterexample: when the event with the greater `updatedAt`
(`created_at = 100`) arrives before an older one (`created_at = 50`),
`fetchProfile` returns the older event's profile — arrival order wins,
not the greatest timestamp, contradicting the claim. -/
theorem c3_counterexample :
    (fetchProfile pk64 [eventNewer, eventOlder]).map NostrProfile.created_at =
      some 50 ∧
    (fetchProfile pk64 [eventNewer, eventOlder]).map NostrProfile.created_at ≠
      some 100 := by
  constructor
  · decide
  · decide

/-- C3 (amended): `NostrService.fetchProfile` returns the profile built
from the LAST qualifying event in arrival order (kind 0, matching
author, parseable content), regardless of the events' `created_at`
timestamps; an older event arriving later does replace a newer
candidate. -/
theorem c3_last_arrival_wins (pubkey : String) (events : List NostrEvent) :
    fetchProfile pubkey events =
      (lastQualifying pubkey events).map profileOfEvent := by
  unfold fetchProfile
  rw [fetchProfile_foldl_acc]
  cases lastQualifying pubkey events <;> rfl

/-! ## C6 — storage exception handling -/

/-- C6 counterexample: `StorageService.listImages` has no try/catch, so a
storage-layer exception propagates to the caller instead of being
converted to a no-op return, contradicting the claim that every Cache
Store operation swallows storage exceptions. -/
theorem c6_counterexample :
    svcListImages (.error "simulated R2 outage") =
      .error "simulated R2 outage" := rfl

/-- C6 (amended): every `StorageService` operation except `listImages`
converts a storage-layer exception into a `null`/no-op return
(`getImage`, `putImage`, `deleteImage`, `getProfileMetadata`,
`putProfileMetadata`, `deleteProfileMetadata`), while `listImages`
propagates the exception unchanged; successful calls pass through. -/
theorem c6_swallow_except_list (msg : String) (blob : StoredBlob)
    (m : ProfileMetadata) :
    svcGetImage (.error msg) = none ∧
    svcPutImage (.error msg) = none ∧
    svcDeleteImage (.error msg) = () ∧
    svcGetProfileMetadata (.error msg) = none ∧
    svcPutProfileMetadata (.error msg) = () ∧
    svcDeleteProfileMetadata (.error msg) = () ∧
    svcListImages (.error msg) = .error msg ∧
    svcGetImage (.ok (some blob)) = some blob ∧
    svcGetProfileMetadata (.ok (some m)) = some m :=
  ⟨rfl, rfl, rfl, rfl, rfl, rfl, rfl, rfl, rfl⟩

/-! ## C10 — failure recording for an absent record -/

/-- C10: recording a fetch failure for an identity with no CacheRecord
creates a record with `fetchedAt` set to the current time (nonzero),
empty variants, `failureCount = 1`, empty `originalUrl`, and
`lastFailure = now`; once the retention cutoff passes `now` the record
satisfies the same pruning predicate (`fetchedAt < cutoffTime`) as a
once-fetched record, being indistinguishable by `fetchedAt` alone. -/
theorem c10_record_failure_absent (s : Store) (pk : String) (now : Nat)
    (h0 : 0 < now) (habs : kvGet s pk = none) :
    ∃ m, kvGet (recordFailure s pk now) pk = some m ∧
      m.fetchedAt = now ∧ m.fetchedAt ≠ 0 ∧ m.sizes = [] ∧
      m.failureCount = some 1 ∧ m.originalUrl = "" ∧
      m.lastFailure = some now ∧ m.profileUpdatedAt = now ∧
      (∀ cutoff, now < cutoff → cleanupShouldDelete m cutoff = true) := by
  unfold recordFailure
  rw [habs]
  refine ⟨⟨pk, "", [], now, now, some 1, some now⟩, ?_, rfl,
    (show now ≠ 0 by omega), rfl, rfl, rfl, rfl, rfl, ?_⟩
  · rw [kvGet_kvPut]
    simp
  · intro cutoff hc
    simp only [cleanupShouldDelete, decide_eq_true_eq]
    omega

/-- C10 witness: the theorem applied to the empty store at time 5. -/
theorem c10_witness :
    ∃ m, kvGet (recordFailure emptyStore pk64 5) pk64 = some m ∧
      m.fetchedAt = 5 ∧ m.fetchedAt ≠ 0 ∧ m.sizes = [] ∧
      m.failureCount = some 1 ∧ m.originalUrl = "" ∧
      m.lastFailure = some 5 ∧ m.profileUpdatedAt = 5 ∧
      (∀ cutoff, 5 < cutoff → cleanupShouldDelete m cutoff = true) :=
  c10_record_failure_absent emptyStore pk64 5 (by omega) (by rfl)

/-! ## C7 — blob key scheme and round trip -/

/-- C7: `generateR2Key` is a pure function of `(identity, size, format)`
following the published scheme — `avatars/{identity}/{size}x{size}.{format}`
when both a valid size and a valid format are given,
`avatars/{identity}/original` otherwise — and the blob written by every
successful refresh is retrievable by recomputing the key from the same
triple. -/
theorem c7_blob_key_scheme :
    (∀ (pk : String) (sz : Nat) (f : String), sz ∈ [200, 400, 800] →
      f ∈ ["webp", "jpeg", "png"] →
      generateR2Key pk (some sz) (some f) =
        "avatars/" ++ pk ++ "/" ++ natDecimal sz ++ "x" ++ natDecimal sz ++
          "." ++ f) ∧
    (∀ pk : String,
      generateR2Key pk none none = "avatars/" ++ pk ++ "/original") ∧
    (∀ (pk : String) (sz : Nat),
      generateR2Key pk (some sz) none = "avatars/" ++ pk ++ "/original") ∧
    (∀ (pk f : String),
      generateR2Key pk none (some f) = "avatars/" ++ pk ++ "/original") ∧
    (∀ cfg pubkey size format cacheKey metadata events outcome proxyOutcome
        now s r s',
      fetchAndProcessNewImage cfg pubkey size format cacheKey metadata events
        outcome proxyOutcome now s = .ok (r, s') →
      ∃ blob, r2Get s' (generateR2Key pubkey (some size) format) = some blob) := by
  have hslash : ("/" : String) ++ "original" = "/original" := rfl
  refine ⟨?_, ?_, ?_, ?_, ?_⟩
  · intro pk sz f hsz hf
    simp only [List.mem_cons, List.mem_singleton, List.not_mem_nil,
      or_false] at hsz hf
    have hszne : sz ≠ 0 := by rcases hsz with rfl | rfl | rfl <;> decide
    have hfne : f ≠ "" := by rcases hf with rfl | rfl | rfl <;> decide
    simp [generateR2Key, truthyNat, truthyStr, hszne, hfne,
      String.append_assoc]
  · intro pk
    simp [generateR2Key, truthyNat, truthyStr, String.append_assoc, hslash]
  · intro pk sz
    simp [generateR2Key, truthyNat, truthyStr, String.append_assoc, hslash]
  · intro pk f
    simp [generateR2Key, truthyNat, truthyStr, String.append_assoc, hslash]
  · intro cfg pubkey size format cacheKey metadata events outcome proxyOutcome
      now s r s' h
    obtain ⟨profile, pic, buffer, pimg, _, _, _, _, _, _, hs, _⟩ :=
      refresh_ok_shape h
    refine ⟨⟨pimg.buffer, pimg.contentType, etagFor now pimg.size⟩, ?_⟩
    rw [hs, r2Get_kvPut, r2Get_r2Put, if_pos rfl]

/-- C7 witness: the key scheme evaluated at `(pk64, 400, webp)` and at
the unsized variants, and the round trip observed on a concrete
successful refresh. -/
theorem c7_witness :
    generateR2Key pk64 (some 400) (some "webp") =
      "avatars/" ++ pk64 ++ "/" ++ natDecimal 400 ++ "x" ++ natDecimal 400 ++
        "." ++ "webp" ∧
    generateR2Key pk64 none none = "avatars/" ++ pk64 ++ "/original" ∧
    (∃ r s', fetchAndProcessNewImage cfgD pk64 400 none
        (getCacheKey pk64 (some 400) none) none [eventD] (.response respPng)
        (.response respPng) 777 emptyStore = .ok (r, s') ∧
      ∃ blob, r2Get s' (generateR2Key pk64 (some 400) none) = some blob) := by
  refine ⟨c7_blob_key_scheme.1 pk64 400 "webp" (by decide) (by decide),
    c7_blob_key_scheme.2.1 pk64, ?_⟩
  have hok : isOkE (fetchAndProcessNewImage cfgD pk64 400 none
      (getCacheKey pk64 (some 400) none) none [eventD] (.response respPng)
      (.response respPng) 777 emptyStore) = true := by decide
  cases hrun : fetchAndProcessNewImage cfgD pk64 400 none
      (getCacheKey pk64 (some 400) none) none [eventD] (.response respPng)
      (.response respPng) 777 emptyStore with
  | error e => rw [hrun] at hok; cases hok
  | ok rs =>
    refine ⟨rs.1, rs.2, by simp [hrun], ?_⟩
    exact c7_blob_key_scheme.2.2.2.2 cfgD pk64 400 none
      (getCacheKey pk64 (some 400) none) none [eventD] (.response respPng)
      (.response respPng) 777 emptyStore rs.1 rs.2 (by simpa using hrun)

/-! ## C2 — successful refresh postcondition -/

/-- C2: every successful run of `fetchAndProcessNewImage` persists the
blob under the variant's generated key, upserts the VariantEntry into
the CacheRecord at the cache key, sets `fetchedAt` to the current time,
resets `failureCount` to 0, persists the CacheRecord, and responds 200
with cache-miss headers carrying the fresh etag and the stored bytes.
The side condition `hmd` records that the metadata passed in is the
record read for `pubkey` (as `handleAvatar` does). -/
theorem c2_refresh_success_postcondition (cfg : Config) (pubkey : String)
    (size : Nat) (format : Option String) (cacheKey : String)
    (metadata : Option ProfileMetadata) (events : List NostrEvent)
    (outcome proxyOutcome : FetchOutcome) (now : Nat) (s : Store)
    (r : AvatarResponse) (s' : Store)
    (hmd : ∀ m0, metadata = some m0 → m0.pubkey = pubkey)
    (h : fetchAndProcessNewImage cfg pubkey size format cacheKey metadata
        events outcome proxyOutcome now s = .ok (r, s')) :
    ∃ m entry blob,
      kvGet s' pubkey = some m ∧
      lookupA m.sizes cacheKey = some entry ∧
      entry.key = generateR2Key pubkey (some size) format ∧
      r2Get s' entry.key = some blob ∧
      blob.etag = entry.etag ∧
      blob.contentType = entry.contentType ∧
      entry.lastModified = now ∧
      m.fetchedAt = now ∧
      m.failureCount = some 0 ∧
      r.status = 200 ∧
      r.xCacheHit = some false ∧
      r.etag = some entry.etag ∧
      r.body = .image blob.bytes := by
  obtain ⟨profile, pic, buffer, pimg, hfp, hpic, hfi, hpi, hbuf, hsz, hs, hr⟩ :=
    refresh_ok_shape h
  refine ⟨mkRefreshRecord metadata pubkey pic profile.created_at cacheKey
      ⟨generateR2Key pubkey (some size) format, pimg.contentType,
        etagFor now pimg.size, now⟩ now,
    ⟨generateR2Key pubkey (some size) format, pimg.contentType,
      etagFor now pimg.size, now⟩,
    ⟨pimg.buffer, pimg.contentType, etagFor now pimg.size⟩,
    ?_, ?_, rfl, ?_, rfl, rfl, rfl, ?_, ?_, ?_, ?_, ?_, ?_⟩
  · rw [hs, kvGet_kvPut, if_pos]
    cases hmdc : metadata with
    | none => rfl
    | some m0 => rw [mkRefreshRecord_pubkey_some]; exact hmd m0 hmdc
  · exact mkRefreshRecord_sizes metadata pubkey pic profile.created_at
      cacheKey _ now
  · rw [hs, r2Get_kvPut, r2Get_r2Put, if_pos rfl]
  · exact mkRefreshRecord_fetchedAt metadata pubkey pic profile.created_at
      cacheKey _ now
  · exact mkRefreshRecord_failureCount metadata pubkey pic profile.created_at
      cacheKey _ now
  · rw [hr]; rfl
  · rw [hr]; rfl
  · rw [hr]; rfl
  · rw [hr]; rfl

/-- C2 witness: the postcondition observed on a concrete cold-cache
refresh at time 777. -/
theorem c2_witness :
    ∃ r s', fetchAndProcessNewImage cfgD pk64 400 none
        (getCacheKey pk64 (some 400) none) none [eventD] (.response respPng)
        (.response respPng) 777 emptyStore = .ok (r, s') ∧
      ∃ m entry blob,
        kvGet s' pk64 = some m ∧
        lookupA m.sizes (getCacheKey pk64 (some 400) none) = some entry ∧
        entry.key = generateR2Key pk64 (some 400) none ∧
        r2Get s' entry.key = some blob ∧
        blob.etag = entry.etag ∧
        blob.contentType = entry.contentType ∧
        entry.lastModified = 777 ∧
        m.fetchedAt = 777 ∧
        m.failureCount = some 0 ∧
        r.status = 200 ∧
        r.xCacheHit = some false ∧
        r.etag = some entry.etag ∧
        r.body = .image blob.bytes := by
  have hok : isOkE (fetchAndProcessNewImage cfgD pk64 400 none
      (getCacheKey pk64 (some 400) none) none [eventD] (.response respPng)
      (.response respPng) 777 emptyStore) = true := by decide
  cases hrun : fetchAndProcessNewImage cfgD pk64 400 none
      (getCacheKey pk64 (some 400) none) none [eventD] (.response respPng)
      (.response respPng) 777 emptyStore with
  | error e => rw [hrun] at hok; cases hok
  | ok rs =>
    refine ⟨rs.1, rs.2, by simp [hrun], ?_⟩
    exact c2_refresh_success_postcondition cfgD pk64 400 none
      (getCacheKey pk64 (some 400) none) none [eventD] (.response respPng)
      (.response respPng) 777 emptyStore rs.1 rs.2
      (fun m0 hm0 => Option.noConfusion hm0) (by simpa using hrun)

/-! ## C8 — placeholder invariant -/

/-- The data-model invariant: a never-fetched record has no variants. -/
def CacheRecordInv (m : ProfileMetadata) : Prop :=
  m.fetchedAt = 0 → m.sizes = []

/-- Every record reachable in the store satisfies the invariant. -/
def StoreInv (s : Store) : Prop :=
  ∀ k m, kvGet s k = some m → CacheRecordInv m

theorem storeInv_kvPut {s : Store} {m : ProfileMetadata} (hs : StoreInv s)
    (hm : CacheRecordInv m) : StoreInv (kvPut s m) := by
  intro k m' hk
  rw [kvGet_kvPut] at hk
  by_cases hpk : m.pubkey = k
  · rw [if_pos hpk] at hk
    cases hk
    exact hm
  · rw [if_neg hpk] at hk
    exact hs k m' hk

theorem storeInv_r2Put {s : Store} {key : String} {b : StoredBlob}
    (hs : StoreInv s) : StoreInv (r2Put s key b) := by
  intro k m hk
  rw [kvGet_r2Put] at hk
  exact hs k m hk

/-- C8: the invariant `fetchedAt = 0 → variants empty` is preserved by
every write path — the scanner's placeholder creation/update, failure
recording for existing and for absent records, and (at any positive
clock value) the successful-refresh upsert. -/
theorem c8_invariant_preserved :
    (∀ s p, StoreInv s → StoreInv (processProfile s p)) ∧
    (∀ s pk now, StoreInv s → StoreInv (recordFailure s pk now)) ∧
    (∀ cfg pubkey size format cacheKey metadata events outcome proxyOutcome
        now s r s',
      0 < now → StoreInv s →
      fetchAndProcessNewImage cfg pubkey size format cacheKey metadata events
        outcome proxyOutcome now s = .ok (r, s') →
      StoreInv s') := by
  refine ⟨?_, ?_, ?_⟩
  · intro s p hs
    unfold processProfile
    split
    · exact hs
    · split
      · split
        · exact hs
        · exact storeInv_kvPut hs (fun _ => rfl)
      · exact storeInv_kvPut hs (fun _ => rfl)
  · intro s pk now hs
    unfold recordFailure
    split
    · rename_i m hm
      exact storeInv_kvPut hs (fun h0 => hs pk m hm h0)
    · exact storeInv_kvPut hs (fun _ => rfl)
  · intro cfg pubkey size format cacheKey metadata events outcome proxyOutcome
      now s r s' hnow hs h
    obtain ⟨profile, pic, buffer, pimg, _, _, _, _, _, _, hshape, _⟩ :=
      refresh_ok_shape h
    rw [hshape]
    refine storeInv_kvPut (storeInv_r2Put hs) ?_
    intro h0
    rw [mkRefreshRecord_fetchedAt] at h0
    omega

/-- C8 witness: the invariant holds after a concrete scanner placeholder
write, a concrete failure record on the empty store, and a concrete
successful refresh at time 777. -/
theorem c8_witness :
    StoreInv (processProfile emptyStore ⟨pk64, some picUrl, 100⟩) ∧
    StoreInv (recordFailure emptyStore pk64 5) ∧
    ∃ r s', fetchAndProcessNewImage cfgD pk64 400 none
        (getCacheKey pk64 (some 400) none) none [eventD] (.response respPng)
        (.response respPng) 777 emptyStore = .ok (r, s') ∧ StoreInv s' := by
  have hEmpty : StoreInv emptyStore := by
    intro k m hk
    simp [kvGet, emptyStore] at hk
  refine ⟨c8_invariant_preserved.1 emptyStore ⟨pk64, some picUrl, 100⟩ hEmpty,
    c8_invariant_preserved.2.1 emptyStore pk64 5 hEmpty, ?_⟩
  have hok : isOkE (fetchAndProcessNewImage cfgD pk64 400 none
      (getCacheKey pk64 (some 400) none) none [eventD] (.response respPng)
      (.response respPng) 777 emptyStore) = true := by decide
  cases hrun : fetchAndProcessNewImage cfgD pk64 400 none
      (getCacheKey pk64 (some 400) none) none [eventD] (.response respPng)
      (.response respPng) 777 emptyStore with
  | error e => rw [hrun] at hok; cases hok
  | ok rs =>
    refine ⟨rs.1, rs.2, by simp [hrun], ?_⟩
    exact c8_invariant_preserved.2.2 cfgD pk64 400 none
      (getCacheKey pk64 (some 400) none) none [eventD] (.response respPng)
      (.response respPng) 777 emptyStore rs.1 rs.2 (by omega) hEmpty
      (by simpa using hrun)

/-! ## C9 — etag freshness -/

/-- A 9-byte PNG payload. -/
def bodyA : List Nat := [0x89, 0x50, 0x4E, 0x47, 1, 2, 3, 4, 5]

/-- A different 9-byte PNG payload. -/
def bodyB : List Nat := [0x89, 0x50, 0x4E, 0x47, 9, 9, 9, 9, 9]

/-- Origin response carrying `bodyA`. -/
def respBodyA : OriginResponse := ⟨true, 200, "OK", some "image/png", some 9, bodyA⟩

/-- Origin response carrying `bodyB`. -/
def respBodyB : OriginResponse := ⟨true, 200, "OK", some "image/png", some 9, bodyB⟩

/-- Etag of a successful refresh result. -/
def okEtagOf : Except AvatarError (AvatarResponse × Store) → Option (Option String)
  | .ok (r, _) => some r.etag
  | .error _ => none

/-- Bytes stored under `key` by a successful refresh result. -/
def okBlobBytes (key : String) :
    Except AvatarError (AvatarResponse × Store) → Option (List Nat)
  | .ok (_, s) => (r2Get s key).map StoredBlob.bytes
  | .error _ => none

/-- C9 counterexample: two successful refreshes of the same variant key
performed at the same `Date.now()` millisecond (777) store different
bytes of equal length, yet compute the identical etag `"777-9"` — the
etag does not change even though the stored bytes changed. -/
theorem c9_counterexample :
    bodyA ≠ bodyB ∧
    okEtagOf (fetchAndProcessNewImage cfgD pk64 400 none
        (getCacheKey pk64 (some 400) none) none [eventD] (.response respBodyA)
        (.response respBodyA) 777 emptyStore) = some (some "\"777-9\"") ∧
    okEtagOf (fetchAndProcessNewImage cfgD pk64 400 none
        (getCacheKey pk64 (some 400) none) none [eventD] (.response respBodyB)
        (.response respBodyB) 777 emptyStore) = some (some "\"777-9\"") ∧
    okBlobBytes (generateR2Key pk64 (some 400) none)
      (fetchAndProcessNewImage cfgD pk64 400 none
        (getCacheKey pk64 (some 400) none) none [eventD] (.response respBodyA)
        (.response respBodyA) 777 emptyStore) = some bodyA ∧
    okBlobBytes (generateR2Key pk64 (some 400) none)
      (fetchAndProcessNewImage cfgD pk64 400 none
        (getCacheKey pk64 (some 400) none) none [eventD] (.response respBodyB)
        (.response respBodyB) 777 emptyStore) = some bodyB := by
  refine ⟨by decide, by decide, by decide, by decide, by decide⟩

/-- C9 (amended): the etag `"{Date.now()}-{size}"` determines and is
determined by the (timestamp, byte length) pair, so any two successful
refreshes performed at different `Date.now()` millisecond values produce
different etags; only two refreshes within the same millisecond that
store equal-length bytes can repeat an etag. -/
theorem c9_etag_fresh_when_time_advances
    (cfgA cfgB : Config) (pkA pkB : String) (sizeA sizeB : Nat)
    (formatA formatB : Option String) (ckA ckB : String)
    (mdA mdB : Option ProfileMetadata) (evA evB : List NostrEvent)
    (outA proxA outB proxB : FetchOutcome) (nowA nowB : Nat) (sA sB : Store)
    (rA rB : AvatarResponse) (stA stB : Store)
    (h1 : fetchAndProcessNewImage cfgA pkA sizeA formatA ckA mdA evA outA
        proxA nowA sA = .ok (rA, stA))
    (h2 : fetchAndProcessNewImage cfgB pkB sizeB formatB ckB mdB evB outB
        proxB nowB sB = .ok (rB, stB))
    (hne : nowA ≠ nowB) :
    rA.etag ≠ rB.etag := by
  obtain ⟨_, _, _, pimgA, _, _, _, _, _, _, _, hrA⟩ := refresh_ok_shape h1
  obtain ⟨_, _, _, pimgB, _, _, _, _, _, _, _, hrB⟩ := refresh_ok_shape h2
  rw [hrA, hrB]
  intro he
  exact hne (etagFor_inj (Option.some.inj he)).1

/-- C9 witness: refreshes at milliseconds 777 and 778 produce different
etags. -/
theorem c9_witness :
    ∃ rA stA rB stB,
      fetchAndProcessNewImage cfgD pk64 400 none
        (getCacheKey pk64 (some 400) none) none [eventD] (.response respBodyA)
        (.response respBodyA) 777 emptyStore = .ok (rA, stA) ∧
      fetchAndProcessNewImage cfgD pk64 400 none
        (getCacheKey pk64 (some 400) none) none [eventD] (.response respBodyB)
        (.response respBodyB) 778 emptyStore = .ok (rB, stB) ∧
      rA.etag ≠ rB.etag := by
  have hokA : isOkE (fetchAndProcessNewImage cfgD pk64 400 none
      (getCacheKey pk64 (some 400) none) none [eventD] (.response respBodyA)
      (.response respBodyA) 777 emptyStore) = true := by decide
  have hokB : isOkE (fetchAndProcessNewImage cfgD pk64 400 none
      (getCacheKey pk64 (some 400) none) none [eventD] (.response respBodyB)
      (.response respBodyB) 778 emptyStore) = true := by decide
  cases hrunA : fetchAndProcessNewImage cfgD pk64 400 none
      (getCacheKey pk64 (some 400) none) none [eventD] (.response respBodyA)
      (.response respBodyA) 777 emptyStore with
  | error e => rw [hrunA] at hokA; cases hokA
  | ok rsA =>
    cases hrunB : fetchAndProcessNewImage cfgD pk64 400 none
        (getCacheKey pk64 (some 400) none) none [eventD] (.response respBodyB)
        (.response respBodyB) 778 emptyStore with
    | error e => rw [hrunB] at hokB; cases hokB
    | ok rsB =>
      refine ⟨rsA.1, rsA.2, rsB.1, rsB.2, by simp [hrunA], by simp [hrunB], ?_⟩
      exact c9_etag_fresh_when_time_advances cfgD cfgD pk64 pk64 400 400
        none none (getCacheKey pk64 (some 400) none)
        (getCacheKey pk64 (some 400) none) none none [eventD] [eventD]
        (.response respBodyA) (.response respBodyA) (.response respBodyB)
        (.response respBodyB) 777 778 emptyStore emptyStore rsA.1 rsB.1
        rsA.2 rsB.2 (by simpa using hrunA) (by simpa using hrunB) (by omega)

/-! ## C4 — HTML payload classification -/

/-- C4: a payload whose first bytes spell `<html` (any case) is never
returned as a successful image result; and when the fetch reaches the
sniffing step (2xx response, resolvable content type, size checks pass),
a payload containing `sgcaptcha`, `cf-browser-verification` or
`Checking your browser` fails as a bot challenge (status 403 with a
message naming browser verification — the property `handleErrorResponse`
uses to recognise bot challenges), while any other HTML payload fails
with the generic blocked-or-HTML 403 error. -/
theorem c4_html_classification (cfg : Config) (url : String)
    (resp : OriginResponse) (hhtml : isHtmlBody resp.body = true) :
    (∀ b, fetchImageDirect cfg url (.response resp) ≠ .ok b) ∧
    (resp.ok = true →
      ∀ ct, resolveContentType cfg url resp.contentType = some ct →
      (∀ cl, resp.contentLength = some cl → cl ≤ cfg.maxImageSize) →
      resp.body.length ≤ cfg.maxImageSize →
      ((bodyIncludes resp.body "sgcaptcha" = true ∨
        bodyIncludes resp.body "cf-browser-verification" = true ∨
        bodyIncludes resp.body "Checking your browser" = true) →
        ∃ e, fetchImageDirect cfg url (.response resp) = .error e ∧
          e.statusCode = 403 ∧
          listContainsSub e.message.data ("browser verification".data) = true) ∧
      ((bodyIncludes resp.body "sgcaptcha" = false ∧
        bodyIncludes resp.body "cf-browser-verification" = false ∧
        bodyIncludes resp.body "Checking your browser" = false) →
        fetchImageDirect cfg url (.response resp) =
          .error (blockedOrHtmlError resp.body.length url))) := by
  have hsgmsg : ∀ u : String, listContainsSub
      (siteGroundChallenge u).message.data
      ("browser verification".data) = true := by
    intro u
    show listContainsSub
      ("Image blocked by SiteGround CAPTCHA protection. This domain requires browser verification.".data)
      ("browser verification".data) = true
    decide
  have hcfmsg : ∀ u : String, listContainsSub
      (cloudflareChallenge u).message.data
      ("browser verification".data) = true := by
    intro u
    show listContainsSub
      ("Image blocked by Cloudflare browser verification. This domain requires browser verification.".data)
      ("browser verification".data) = true
    decide
  constructor
  · intro b hok2
    simp only [fetchImageDirect] at hok2
    split at hok2 <;> try split at hok2 <;> try split at hok2 <;>
      try split at hok2 <;> try split at hok2 <;> try split at hok2 <;>
      try split at hok2
    all_goals
      first
        | exact absurd hhtml (by assumption)
        | simp at hok2
  · intro hok ct hct hcl hlen
    have hclfalse : (match resp.contentLength with
        | some cl => decide (cl > cfg.maxImageSize)
        | none => false) = false := by
      cases hc : resp.contentLength with
      | none => rfl
      | some cl =>
        have := hcl cl hc
        simp only [decide_eq_false_iff_not]
        omega
    have hlennot : ¬(resp.body.length > cfg.maxImageSize) := by omega
    constructor
    · intro hmark
      by_cases hsg : (bodyIncludes resp.body "sgcaptcha" ||
          bodyIncludes resp.body "/.well-known/sgcaptcha/") = true
      · refine ⟨siteGroundChallenge url, ?_, rfl, hsgmsg url⟩
        simp [fetchImageDirect, hok, hct, hclfalse, hlennot, hhtml, hsg]
      · simp only [Bool.or_eq_true, not_or, Bool.not_eq_true] at hsg
        have hcf : (bodyIncludes resp.body "cf-browser-verification" ||
            bodyIncludes resp.body "Checking your browser") = true := by
          rcases hmark with hm | hm | hm
          · rw [hm] at hsg
            simp at hsg
          · simp [hm]
          · simp [hm]
        refine ⟨cloudflareChallenge url, ?_, rfl, hcfmsg url⟩
        simp [fetchImageDirect, hok, hct, hclfalse, hlennot, hhtml, hsg.1,
          hsg.2, hcf]
    · rintro ⟨hm1, hm2, hm3⟩
      have hwk : bodyIncludes resp.body "/.well-known/sgcaptcha/" = false := by
        cases hwkc : bodyIncludes resp.body "/.well-known/sgcaptcha/" with
        | false => rfl
        | true => exact absurd (wellknown_implies_sg _ hwkc) (by simp [hm1])
      simp [fetchImageDirect, hok, hct, hclfalse, hlennot, hhtml, hm1, hm2,
        hm3, hwk]

/-- A SiteGround CAPTCHA interstitial payload. -/
def sgBody : List Nat := strBytes "<html>sgcaptcha</html>"

/-- Origin response carrying `sgBody` with an HTML content type. -/
def respSg : OriginResponse := ⟨true, 200, "OK", some "text/html", none, sgBody⟩

/-- C4 witness: the classification observed on a concrete SiteGround
CAPTCHA page. -/
theorem c4_witness :
    isHtmlBody sgBody = true ∧
    ∃ e, fetchImageDirect cfgD picUrl (.response respSg) = .error e ∧
      e.statusCode = 403 ∧
      listContainsSub e.message.data ("browser verification".data) = true := by
  refine ⟨by decide, ?_⟩
  exact ((c4_html_classification cfgD picUrl respSg (by decide)).2 rfl
    "image/png" (by decide) (fun cl hcl => by cases hcl) (by decide)).1
    (Or.inl (by decide))

/-! ## C1 — cache-hit characterization -/

/-- A stored variant entry pointing at blob key `blob1`. -/
def entryC1 : VariantEntry := ⟨"blob1", "image/png", "\"1-9\"", 0⟩

/-- The blob stored under `blob1`. -/
def blobC1 : StoredBlob := ⟨[1, 2, 3], "image/png", "\"1-9\""⟩

/-- A record whose only variant is `entryC1`, fetched at time 0. -/
def recordC1 : ProfileMetadata :=
  ⟨pk64, picUrl, [(getCacheKey pk64 none none, entryC1)], 0, 0, none, none⟩

/-- A store holding `recordC1` and its blob. -/
def storeC1 : Store := ⟨[(profileKey pk64, recordC1)], [("blob1", blobC1)]⟩

/-- C1 (amended): the engine serves from the store exactly when a record
exists with a variant entry for the cache key, the record's age does not
EXCEED `maxAge` (that is, `now - fetchedAt ≤ maxAge * 1000`, not the
claim's strict `<`), and the blob is present; the hit response carries
the stored bytes and entry headers and is independent of all relay and
origin inputs; in every other case `handleAvatar` proceeds to the
refresh path rather than erroring for the missing blob. -/
theorem c1_cache_hit_characterization (cfg : Config)
    (pubkey cacheKey : String) (now : Nat) (s : Store) :
    ((∃ r, cacheCheck cfg pubkey cacheKey now s = some r) ↔
      ∃ m im blob, kvGet s pubkey = some m ∧
        lookupA m.sizes cacheKey = some im ∧
        (now : Int) - (m.fetchedAt : Int) ≤ (cfg.maxAge : Int) * 1000 ∧
        r2Get s im.key = some blob) ∧
    (∀ m im blob, kvGet s pubkey = some m →
      lookupA m.sizes cacheKey = some im →
      (now : Int) - (m.fetchedAt : Int) ≤ (cfg.maxAge : Int) * 1000 →
      r2Get s im.key = some blob →
      cacheCheck cfg pubkey cacheKey now s = some (hitResponse im blob)) ∧
    (∀ size format events outcome proxyOutcome r,
      validatePubkey pubkey = true →
      getCacheKey pubkey size format = cacheKey →
      cacheCheck cfg pubkey cacheKey now s = some r →
      handleAvatar cfg pubkey size format events outcome proxyOutcome now s =
        (r, s)) ∧
    (∀ size format events outcome proxyOutcome,
      validatePubkey pubkey = true →
      getCacheKey pubkey size format = cacheKey →
      cacheCheck cfg pubkey cacheKey now s = none →
      handleAvatar cfg pubkey size format events outcome proxyOutcome now s =
        runRefresh cfg pubkey size format cacheKey events outcome proxyOutcome
          now s) := by
  have hserve : ∀ m im blob, kvGet s pubkey = some m →
      lookupA m.sizes cacheKey = some im →
      (now : Int) - (m.fetchedAt : Int) ≤ (cfg.maxAge : Int) * 1000 →
      r2Get s im.key = some blob →
      cacheCheck cfg pubkey cacheKey now s = some (hitResponse im blob) := by
    intro m im blob hm him hfresh hblob
    have hsr : shouldRevalidate now m.fetchedAt cfg.maxAge = false := by
      simp only [shouldRevalidate, decide_eq_false_iff_not]
      omega
    simp [cacheCheck, hm, him, serveCachedImage, hsr, hblob]
  refine ⟨⟨?_, ?_⟩, hserve, ?_, ?_⟩
  · rintro ⟨r, hr⟩
    unfold cacheCheck at hr
    split at hr
    · cases hr
    · rename_i m hm
      split at hr
      · unfold serveCachedImage at hr
        split at hr
        · cases hr
        · rename_i im him
          split at hr
          · cases hr
          · rename_i hsr
            split at hr
            · cases hr
            · rename_i blob hblob
              refine ⟨m, im, blob, hm, him, ?_, hblob⟩
              simp only [shouldRevalidate, Bool.not_eq_true,
                decide_eq_false_iff_not, not_lt] at hsr
              omega
      · cases hr
  · rintro ⟨m, im, blob, hm, him, hfresh, hblob⟩
    exact ⟨hitResponse im blob, hserve m im blob hm him hfresh hblob⟩
  · intro size format events outcome proxyOutcome r hval hkey hcc
    simp [handleAvatar, hval, hkey, hcc]
  · intro size format events outcome proxyOutcome hval hkey hcc
    simp [handleAvatar, hval, hkey, hcc]

/-- C1 counterexample: a record fetched at time 0 read at
`now = maxAge * 1000` exactly: the claim's strict freshness condition
`now - fetchedAt < maxAge` fails, yet the engine serves the cache hit
(the code's condition is `now - fetchedAt ≤ maxAge * 1000`). -/
theorem c1_counterexample :
    kvGet storeC1 pk64 = some recordC1 ∧
    recordC1.fetchedAt = 0 ∧
    ¬((604800000 : Int) - ((recordC1.fetchedAt : Nat) : Int) <
        (cfgD.maxAge : Int) * 1000) ∧
    (∃ r, cacheCheck cfgD pk64 (getCacheKey pk64 none none) 604800000 storeC1 =
      some r) := by
  refine ⟨by decide, rfl, by decide, ⟨hitResponse entryC1 blobC1, by decide⟩⟩

/-- C1 witness: a fresh record at time 100 is served from the store, and
`handleAvatar` returns that very response with the store untouched. -/
theorem c1_witness :
    cacheCheck cfgD pk64 (getCacheKey pk64 none none) 100 storeC1 =
      some (hitResponse entryC1 blobC1) ∧
    handleAvatar cfgD pk64 none none [] (.response respPng)
      (.response respPng) 100 storeC1 = (hitResponse entryC1 blobC1, storeC1) := by
  have h := c1_cache_hit_characterization cfgD pk64 (getCacheKey pk64 none none)
    100 storeC1
  have hserve := h.2.1 recordC1 entryC1 blobC1 (by decide) (by decide)
    (by decide) (by decide)
  exact ⟨hserve, h.2.2.1 none none [] (.response respPng) (.response respPng)
    (hitResponse entryC1 blobC1) (by decide) rfl hserve⟩

/-! ## C5 — blocked-origin scenario -/

/-- An HTML challenge page beginning with a doctype declaration. -/
def doctypeBody : List Nat := strBytes "<!DOCTYPE html>cf-browser-verification"

/-- Origin response carrying `doctypeBody`. -/
def respDoctype : OriginResponse :=
  ⟨true, 200, "OK", some "text/html", none, doctypeBody⟩

/-- The `botProtection` flag of a response body. -/
def botProtectionOf : ABody → Bool
  | .image _ => false
  | .json e => e.botProtection

/-- C5 counterexample: an origin 200 whose body begins `<!DOCTYPE html>`
and contains `cf-browser-verification` is NOT detected by the HTML sniff
(which requires `<html` at offset 0); the bytes pass the fetch, fail
magic-byte validation, and the engine answers 500 without
`botProtection` — not the claimed 403 with `botProtection: true`. -/
theorem c5_counterexample :
    listStartsWith doctypeBody (strBytes "<!DOCTYPE html>") = true ∧
    bodyIncludes doctypeBody "cf-browser-verification" = true ∧
    (handleAvatar cfgD pk64 none none [eventD] (.response respDoctype)
      (.response respDoctype) 777 emptyStore).1.status = 500 ∧
    (handleAvatar cfgD pk64 none none [eventD] (.response respDoctype)
      (.response respDoctype) 777 emptyStore).1.status ≠ 403 ∧
    botProtectionOf (handleAvatar cfgD pk64 none none [eventD]
      (.response respDoctype) (.response respDoctype) 777
      emptyStore).1.body = false := by
  refine ⟨by decide, by decide, by decide, by decide, by decide⟩

/-- An HTML challenge page beginning `<html` at offset 0. -/
def htmlChalBody : List Nat :=
  strBytes "<html><head>cf-browser-verification</head></html>"

/-- Origin response carrying `htmlChalBody`. -/
def respHtmlChal : OriginResponse :=
  ⟨true, 200, "OK", some "text/html", none, htmlChalBody⟩

/-- C5 (amended): for the blocked-origin scenario the body must begin
`<html` (not `<!DOCTYPE html>`): an origin 200 whose body starts `<html`
and contains `cf-browser-verification` yields response status 403 with
`botProtection: true` in the JSON body (no proxy secret configured). -/
theorem c5_html_challenge_yields_403 :
    isHtmlBody htmlChalBody = true ∧
    bodyIncludes htmlChalBody "cf-browser-verification" = true ∧
    (handleAvatar cfgD pk64 none none [eventD] (.response respHtmlChal)
      (.response respHtmlChal) 777 emptyStore).1.status = 403 ∧
    botProtectionOf (handleAvatar cfgD pk64 none none [eventD]
      (.response respHtmlChal) (.response respHtmlChal) 777
      emptyStore).1.body = true := by
  refine ⟨by decide, by decide, by decide, by decide⟩

end YestrFace
